import Mathlib

/-!
Verification of the tax-year-bounded financial aggregation and mileage-claim
computation of the PacaPrints Ops finance view
(`src/app/finance/expenses/page.tsx`).

Monetary amounts and mileage figures are embedded as rationals (`ℚ`); the
source treats them as decimal quantities and applies no internal rounding.
JavaScript's falsy-coalescing `a || b` on numbers is embedded explicitly as
`jsOr`, since the source relies on it (`owners_count || 2`,
`est_tax_rate || 0.2`).
-/

namespace PacaPrints

/-- JavaScript `a || b` for numeric `a`: `0` is falsy, every other number is
truthy. (NaN, also falsy, has no rational counterpart; where a claim needs
it, an `Option`-lifted variant is used.) -/
def jsOr (a b : ℚ) : ℚ := if a = 0 then b else a

/-- `type FinanceSettings` from the source. -/
structure FinanceSettings where
  owners_count : ℚ
  est_tax_rate : ℚ
  mileage_rate_first : ℚ
  mileage_rate_after : ℚ
  mileage_threshold : ℚ
deriving DecidableEq

/-- The hard-coded fallback settings `safeSettings` uses when the settings
lookup returns nothing. -/
def defaultFinanceSettings : FinanceSettings :=
  { owners_count := 2
    est_tax_rate := 0.2
    mileage_rate_first := 0.45
    mileage_rate_after := 0.25
    mileage_threshold := 10000 }

/-- `const safeSettings: FinanceSettings = s ?? {...}` from `loadAll`. -/
def safeSettings (s : Option FinanceSettings) : FinanceSettings :=
  s.getD defaultFinanceSettings

/-- `claimForMiles(miles, s)` from the source:
two-tier mileage reimbursement. -/
def claimForMiles (miles : ℚ) (s : FinanceSettings) : ℚ :=
  let firstMiles := min miles s.mileage_threshold
  let afterMiles := max 0 (miles - s.mileage_threshold)
  firstMiles * s.mileage_rate_first + afterMiles * s.mileage_rate_after

/-- The fields of `type ExpenseRow` the aggregation reads. -/
structure ExpenseRow where
  amount : ℚ

/-- The fields of `type MileageRow` the aggregation reads. -/
structure MileageRow where
  miles : ℚ

/-- `expensesTotal`: `expenses.reduce((sum, e) => sum + Number(e.amount || 0), 0)`. -/
def expensesTotal (expenses : List ExpenseRow) : ℚ :=
  expenses.foldl (fun sum e => sum + jsOr e.amount 0) 0

/-- `totalMiles`: `mileage.reduce((sum, r) => sum + Number(r.miles || 0), 0)`. -/
def totalMiles (mileage : List MileageRow) : ℚ :=
  mileage.foldl (fun sum r => sum + jsOr r.miles 0) 0

/-- `mileageClaimTotal` on the settings-present path:
`claimForMiles(totalMiles, settings)`. -/
def mileageClaimTotal (mileage : List MileageRow) (s : FinanceSettings) : ℚ :=
  claimForMiles (totalMiles mileage) s

/-- `profit = gross - fees - (expensesTotal + mileageClaimTotal)`. -/
def profit (gross fees : ℚ) (expenses : List ExpenseRow)
    (mileage : List MileageRow) (s : FinanceSettings) : ℚ :=
  gross - fees - (expensesTotal expenses + mileageClaimTotal mileage s)

/-- The record returned by the `taxPot` memo. -/
structure TaxPot where
  owners : ℚ
  perOwnerProfit : ℚ
  estTaxEach : ℚ
  estTaxTotal : ℚ
deriving DecidableEq

/-- The `taxPot` computation from the source (settings-present path):
```
const owners = Math.max(1, settings.owners_count || 2);
const perOwnerProfit = profit / owners;
const taxableEach = Math.max(0, perOwnerProfit);
const estTaxEach = taxableEach * (settings.est_tax_rate || 0.2);
const estTaxTotal = estTaxEach * owners;
```
-/
def taxPot (profit : ℚ) (s : FinanceSettings) : TaxPot :=
  let owners := max 1 (jsOr s.owners_count 2)
  let perOwnerProfit := profit / owners
  let taxableEach := max 0 perOwnerProfit
  let estTaxEach := taxableEach * jsOr s.est_tax_rate 0.2
  let estTaxTotal := estTaxEach * owners
  { owners := owners
    perOwnerProfit := perOwnerProfit
    estTaxEach := estTaxEach
    estTaxTotal := estTaxTotal }

theorem jsOr_zero_right (a : ℚ) : jsOr a 0 = a := by
  unfold jsOr; split <;> simp_all

theorem expensesTotal_eq_sum (expenses : List ExpenseRow) :
    expensesTotal expenses = (expenses.map (fun e => e.amount)).sum := by
  suffices h : ∀ (l : List ExpenseRow) (acc : ℚ),
      l.foldl (fun sum e => sum + jsOr e.amount 0) acc
        = acc + (l.map (fun e => e.amount)).sum by
    simpa using h expenses 0
  intro l
  induction l with
  | nil => simp
  | cons e t ih =>
      intro acc
      rw [List.foldl_cons, ih, jsOr_zero_right, List.map_cons, List.sum_cons]
      ring

theorem totalMiles_eq_sum (mileage : List MileageRow) :
    totalMiles mileage = (mileage.map (fun r => r.miles)).sum := by
  suffices h : ∀ (l : List MileageRow) (acc : ℚ),
      l.foldl (fun sum r => sum + jsOr r.miles 0) acc
        = acc + (l.map (fun r => r.miles)).sum by
    simpa using h mileage 0
  intro l
  induction l with
  | nil => simp
  | cons r t ih =>
      intro acc
      rw [List.foldl_cons, ih, jsOr_zero_right, List.map_cons, List.sum_cons]
      ring

/-- `String.prototype.padStart(targetLength, padString)` for a one-character
pad string: prepend copies of `c` until the length is at least `w`. -/
def jsPadStart (w : ℕ) (c : Char) (s : String) : String :=
  String.mk (List.replicate (w - s.length) c) ++ s

/-- ECMAScript `Date.UTC(year, …)` year interpretation: an integer year
between 0 and 99 is read as `1900 + year`; other years are taken as-is.
Years are modelled as naturals (calendar year numbers). -/
def jsUTCFullYear (y : ℕ) : ℕ := if y ≤ 99 then 1900 + y else y

/-- A calendar date at day granularity (month 1–12, day 1–31), standing for
a JavaScript `Date` instant in UTC. -/
structure JSDate where
  year : ℕ
  month : ℕ
  day : ℕ
deriving DecidableEq

/-- The date is a real calendar date (the ranges needed for the numeric key
below to order dates chronologically). -/
def JSDate.valid (d : JSDate) : Prop :=
  1 ≤ d.month ∧ d.month ≤ 12 ∧ 1 ≤ d.day ∧ d.day ≤ 31

instance (d : JSDate) : Decidable d.valid := by
  unfold JSDate.valid; infer_instance

/-- Numeric key ordering valid dates chronologically, mirroring the
timestamp comparisons of the source (`today >= startThisYear`, and the cap
at the maximum representable instant). -/
def dateKey (d : JSDate) : ℕ := d.year * 10000 + d.month * 100 + d.day

/-- The text of `d.toISOString().slice(0, 10)` for a representable UTC date
with year `y`, month `m`, day `d` (month 1–12): years 0–9999 print as
`YYYY-MM-DD`; larger years use the expanded form `+YYYYYY-MM-DDT…`, whose
first ten characters are `+YYYYYY-MM`. -/
def isoSlice10Str (y m d : ℕ) : String :=
  if y ≤ 9999 then
    jsPadStart 4 '0' (toString y) ++ "-" ++ jsPadStart 2 '0' (toString m)
      ++ "-" ++ jsPadStart 2 '0' (toString d)
  else
    "+" ++ jsPadStart 6 '0' (toString y) ++ "-" ++ jsPadStart 2 '0' (toString m)

/-- `d.toISOString().slice(0, 10)` for the UTC date `(y, m, d)`, including
the error path: an ECMAScript time value is capped at ±8.64e15 ms, the
latest representable instant being `+275760-09-13T00:00:00Z`; past it
`Date.UTC` yields `NaN` and `toISOString` throws a `RangeError`, modelled
here as `none`. (The earliest representable instant, `-271821-04-20`, is
unreachable: the effective year after the 0–99 remap is at least 100.) -/
def isoSlice10 (y m d : ℕ) : Option String :=
  if dateKey { year := y, month := m, day := d }
      ≤ dateKey { year := 275760, month := 9, day := 13 }
  then some (isoSlice10Str y m d)
  else none

/-- The `{start, endExclusive}` pair returned by `getUKTaxYearRangeForYear`. -/
structure TaxYearRange where
  start : String
  endExclusive : String
deriving DecidableEq

/-- `getUKTaxYearRangeForYear(startYear)` from the source: ISO slices of
`Date.UTC(startYear, 3, 6)` and `Date.UTC(startYear + 1, 3, 6)` (month
index 3 is April). If either `toISOString` call throws — which happens
exactly when the date lies past the maximum representable instant — the
whole call throws; `none` models the propagated exception. -/
def getUKTaxYearRangeForYear (startYear : ℕ) : Option TaxYearRange :=
  (isoSlice10 (jsUTCFullYear startYear) 4 6).bind fun s =>
    (isoSlice10 (jsUTCFullYear (startYear + 1)) 4 6).map fun e =>
      { start := s, endExclusive := e }

/-- `taxYearLabel(startYear)` from the source:
`startYear + "-" + String((startYear + 1) % 100).padStart(2, "0")`. -/
def taxYearLabel (startYear : ℕ) : String :=
  toString startYear ++ "-" ++ jsPadStart 2 '0' (toString ((startYear + 1) % 100))

/-- `getCurrentUKTaxYearStartYear(today)` from the source:
`y = today.getFullYear()`; return `y` if `today >= Date.UTC(y, 3, 6)`,
else `y - 1`. The result is an integer (`y - 1` can be negative). -/
def getCurrentUKTaxYearStartYear (today : JSDate) : ℤ :=
  let y := today.year
  if dateKey { year := jsUTCFullYear y, month := 4, day := 6 } ≤ dateKey today
  then (y : ℤ) else (y : ℤ) - 1

/-- `owners_count || 2` with the JavaScript number lifted to `Option ℚ`:
`none` stands for the falsy non-rational inputs (`NaN`, `undefined`),
which coalesce to the default just like `0` does. -/
def jsOrOpt (a : Option ℚ) (b : ℚ) : ℚ :=
  match a with
  | none => b
  | some x => if x = 0 then b else x

/-- The owners divisor `Math.max(1, settings.owners_count || 2)` of `taxPot`,
over the `Option`-lifted owners count. -/
def ownersDivisor (oc : Option ℚ) : ℚ := max 1 (jsOrOpt oc 2)

theorem one_le_taxPot_owners (p : ℚ) (s : FinanceSettings) :
    1 ≤ (taxPot p s).owners := le_max_left 1 (jsOr s.owners_count 2)

/-- C1: `profit = grossRevenue − platformFees − (expensesTotal +
mileageClaimTotal)`, where `expensesTotal` sums `amount` over the expense
records and `mileageClaimTotal` is the mileage claim of the summed miles;
on the end-to-end scenario (default settings, gross 10000, fees 500,
expenses summing 2000, miles summing 11000) the outputs are
`mileageClaimTotal = 4750`, `profit = 2750`, `perOwnerProfit = 1375`,
`estTaxEach = 275`, `estTaxTotal = 550`. -/
theorem profit_formula_and_scenario :
    (∀ (gross fees : ℚ) (expenses : List ExpenseRow) (mileage : List MileageRow)
        (s : FinanceSettings),
        profit gross fees expenses mileage s
          = gross - fees - ((expenses.map (fun e => e.amount)).sum
              + claimForMiles ((mileage.map (fun r => r.miles)).sum) s))
    ∧ mileageClaimTotal [⟨5000⟩, ⟨6000⟩] defaultFinanceSettings = 4750
    ∧ profit 10000 500 [⟨1200⟩, ⟨800⟩] [⟨5000⟩, ⟨6000⟩] defaultFinanceSettings = 2750
    ∧ (taxPot (profit 10000 500 [⟨1200⟩, ⟨800⟩] [⟨5000⟩, ⟨6000⟩] defaultFinanceSettings)
        defaultFinanceSettings).perOwnerProfit = 1375
    ∧ (taxPot (profit 10000 500 [⟨1200⟩, ⟨800⟩] [⟨5000⟩, ⟨6000⟩] defaultFinanceSettings)
        defaultFinanceSettings).estTaxEach = 275
    ∧ (taxPot (profit 10000 500 [⟨1200⟩, ⟨800⟩] [⟨5000⟩, ⟨6000⟩] defaultFinanceSettings)
        defaultFinanceSettings).estTaxTotal = 550 := by
  refine ⟨?_, ?_, ?_, ?_, ?_, ?_⟩
  · intro gross fees expenses mileage s
    rw [profit, mileageClaimTotal, expensesTotal_eq_sum, totalMiles_eq_sum]
  all_goals
    norm_num [profit, mileageClaimTotal, expensesTotal, totalMiles, claimForMiles,
      taxPot, jsOr, defaultFinanceSettings]

/-- C2: for `totalMiles ≥ 0` and `mileageThreshold ≥ 0`, the mileage claim is
`min(totalMiles, threshold) × rateFirst + max(0, totalMiles − threshold) ×
rateAfter`. -/
theorem claimForMiles_spec (miles : ℚ) (s : FinanceSettings)
    (hm : 0 ≤ miles) (ht : 0 ≤ s.mileage_threshold) :
    claimForMiles miles s
      = min miles s.mileage_threshold * s.mileage_rate_first
        + max 0 (miles - s.mileage_threshold) * s.mileage_rate_after := rfl

/-- Witness for C2: the claimed concrete values at rates 0.45/0.25 and
threshold 10000: 2250 for 5000 miles, 5000 for 12000 miles, 0 for 0 miles. -/
theorem claimForMiles_spec_witness :
    claimForMiles 5000 defaultFinanceSettings = 2250
    ∧ claimForMiles 12000 defaultFinanceSettings = 5000
    ∧ claimForMiles 0 defaultFinanceSettings = 0 := by
  have h1 := claimForMiles_spec 5000 defaultFinanceSettings (by norm_num)
    (by norm_num [defaultFinanceSettings])
  have h2 := claimForMiles_spec 12000 defaultFinanceSettings (by norm_num)
    (by norm_num [defaultFinanceSettings])
  have h3 := claimForMiles_spec 0 defaultFinanceSettings (by norm_num)
    (by norm_num [defaultFinanceSettings])
  refine ⟨h1.trans ?_, h2.trans ?_, h3.trans ?_⟩ <;> norm_num [defaultFinanceSettings]

/-- Counterexample to C3: with `owners_count = 0` and `profit = 2` the code
divides by 2 (the `|| 2` default), giving `perOwnerProfit = 1`, while the
claimed formula `profit / max(1, ownersCount)` gives `2 / max(1, 0) = 2`. -/
theorem taxPot_ownerszero_counterexample :
    (taxPot 2 { defaultFinanceSettings with owners_count := 0 }).perOwnerProfit = 1
    ∧ (2 : ℚ) / max 1 (0 : ℚ) = 2
    ∧ (1 : ℚ) ≠ 2 := by
  norm_num [taxPot, jsOr, defaultFinanceSettings]

/-- C3 (amended): `perOwnerProfit = profit / D` where `D = max(1,
ownersCount || 2)`: for `ownersCount = 0` the falsy default makes the
divisor 2, otherwise the divisor is `max(1, ownersCount)`; in every case the
division is by a value ≥ 1, never by zero. -/
theorem taxPot_perOwnerProfit_divisor (p : ℚ) (s : FinanceSettings) :
    (taxPot p s).perOwnerProfit
      = p / (if s.owners_count = 0 then 2 else max 1 s.owners_count) := by
  simp only [taxPot, jsOr]
  split <;> norm_num

/-- Witness for C3 (amended): at `owners_count = 0`, `profit = 2` the divisor
is 2, so `perOwnerProfit = 1`. -/
theorem taxPot_perOwnerProfit_divisor_witness :
    (taxPot 2 { defaultFinanceSettings with owners_count := 0 }).perOwnerProfit = 1 := by
  have h := taxPot_perOwnerProfit_divisor 2 { defaultFinanceSettings with owners_count := 0 }
  rw [h]; norm_num [defaultFinanceSettings]

/-- Counterexample to C4: with `est_tax_rate = 0`, `owners_count = 1` and
`profit = 10`, the code computes `estTaxEach = 10 × (0 || 0.2) = 2`, not the
0 the claim asserts for a zero tax rate. -/
theorem taxPot_zerorate_counterexample :
    (taxPot 10 { defaultFinanceSettings with
        owners_count := 1, est_tax_rate := 0 }).estTaxEach = 2
    ∧ (2 : ℚ) ≠ 0 := by
  norm_num [taxPot, jsOr, defaultFinanceSettings]

/-- C4 (amended): for `estTaxRate ∈ [0,1]` and `ownersCount ≥ 1`,
`perOwnerProfit = profit / ownersCount`, `estTaxEach = max(0, perOwnerProfit)
× R` with the effective rate `R = estTaxRate || 0.2` (the falsy default turns
a zero rate into 0.2), and `estTaxTotal = estTaxEach × ownersCount`. -/
theorem taxPot_tax_formula (p : ℚ) (s : FinanceSettings)
    (hr0 : 0 ≤ s.est_tax_rate) (hr1 : s.est_tax_rate ≤ 1)
    (hoc : 1 ≤ s.owners_count) :
    (taxPot p s).perOwnerProfit = p / s.owners_count
    ∧ (taxPot p s).estTaxEach
        = max 0 (p / s.owners_count)
          * (if s.est_tax_rate = 0 then 0.2 else s.est_tax_rate)
    ∧ (taxPot p s).estTaxTotal = (taxPot p s).estTaxEach * s.owners_count := by
  have hoc0 : s.owners_count ≠ 0 := by intro h; rw [h] at hoc; norm_num at hoc
  have hmax : max 1 s.owners_count = s.owners_count := max_eq_right hoc
  simp only [taxPot, jsOr, if_neg hoc0, hmax]
  exact ⟨trivial, trivial, trivial⟩

/-- Witness for C4 (amended): with the default settings (rate 0.2, two
owners) and profit 100, `perOwnerProfit = 50`, `estTaxEach = 10`,
`estTaxTotal = 20`. -/
theorem taxPot_tax_formula_witness :
    (taxPot 100 defaultFinanceSettings).perOwnerProfit = 50
    ∧ (taxPot 100 defaultFinanceSettings).estTaxEach = 10
    ∧ (taxPot 100 defaultFinanceSettings).estTaxTotal = 20 := by
  have h := taxPot_tax_formula 100 defaultFinanceSettings
    (by norm_num [defaultFinanceSettings]) (by norm_num [defaultFinanceSettings])
    (by norm_num [defaultFinanceSettings])
  refine ⟨h.1.trans ?_, h.2.1.trans ?_, h.2.2.trans ?_⟩ <;>
    norm_num [taxPot, jsOr, defaultFinanceSettings]

/-- C5: for every settings value and every `profit < 0`, the estimated-tax
outputs are zero: tax is never computed on a loss. -/
theorem taxPot_no_tax_on_loss (p : ℚ) (s : FinanceSettings) (hp : p < 0) :
    (taxPot p s).estTaxEach = 0 ∧ (taxPot p s).estTaxTotal = 0 := by
  have howners : (0 : ℚ) < max 1 (jsOr s.owners_count 2) :=
    lt_of_lt_of_le one_pos (le_max_left 1 _)
  have hneg : p / max 1 (jsOr s.owners_count 2) < 0 :=
    div_neg_of_neg_of_pos hp howners
  have hmax : max 0 (p / max 1 (jsOr s.owners_count 2)) = 0 :=
    max_eq_left (le_of_lt hneg)
  constructor <;> simp only [taxPot, hmax, zero_mul]

/-- Witness for C5: a loss of 100 under the default settings yields zero
estimated tax. -/
theorem taxPot_no_tax_on_loss_witness :
    (taxPot (-100) defaultFinanceSettings).estTaxEach = 0
    ∧ (taxPot (-100) defaultFinanceSettings).estTaxTotal = 0 :=
  taxPot_no_tax_on_loss (-100) defaultFinanceSettings (by norm_num)

theorem append_dash04_dash06 (s : String) :
    ((((s ++ "-") ++ "04") ++ "-") ++ "06") = s ++ "-04-06" := by
  simp [String.append_assoc]

/-- Counterexample to C6: ECMAScript `Date.UTC` reads the years 0–99 as
1900–1999, so the resolver returns `"1950-04-06"` for start year 50 rather
than 6 April of year 50 (`"0050-04-06"`); past year 9999 `toISOString`
switches to the expanded `+YYYYYY` form, whose 10-character slice is not a
`YYYY-MM-DD` date at all; and from start year 275760 on, the `endExclusive`
date lies past the maximum representable instant, so the resolver throws a
`RangeError` (`none`) instead of returning a pair. -/
theorem getUKTaxYearRange_counterexample :
    getUKTaxYearRangeForYear 50
      = some { start := "1950-04-06", endExclusive := "1951-04-06" }
    ∧ "1950-04-06" ≠ "0050-04-06"
    ∧ getUKTaxYearRangeForYear 9999
      = some { start := "9999-04-06", endExclusive := "+010000-04" }
    ∧ getUKTaxYearRangeForYear 275760 = none := by decide

/-- C6 (amended): for start years 100 ≤ Y with Y + 1 ≤ 9999, the resolver
returns `start` = 6 April of year Y and `endExclusive` = 6 April of year
Y + 1 as zero-padded `YYYY-MM-DD` strings; and for every start year Y with
Y + 2 ≤ 275760 — i.e. whenever both resolutions return instead of throwing
— consecutive tax years tile exactly:
`resolveTaxYear(Y).endExclusive = resolveTaxYear(Y+1).start`. -/
theorem getUKTaxYearRange_spec (y : ℕ) (h1 : 100 ≤ y) (h2 : y + 1 ≤ 9999) :
    getUKTaxYearRangeForYear y
      = some { start := jsPadStart 4 '0' (toString y) ++ "-04-06",
               endExclusive := jsPadStart 4 '0' (toString (y + 1)) ++ "-04-06" }
    ∧ ∀ z : ℕ, z + 2 ≤ 275760 →
        ∃ r r', getUKTaxYearRangeForYear z = some r
          ∧ getUKTaxYearRangeForYear (z + 1) = some r'
          ∧ r.endExclusive = r'.start := by
  have hkey : ∀ w : ℕ, w ≤ 275760 →
      dateKey { year := jsUTCFullYear w, month := 4, day := 6 }
        ≤ dateKey { year := 275760, month := 9, day := 13 } := by
    intro w hw
    simp only [dateKey, jsUTCFullYear]
    split <;> omega
  have hsome : ∀ w : ℕ, w + 1 ≤ 275760 →
      getUKTaxYearRangeForYear w
        = some { start := isoSlice10Str (jsUTCFullYear w) 4 6,
                 endExclusive := isoSlice10Str (jsUTCFullYear (w + 1)) 4 6 } := by
    intro w hw
    unfold getUKTaxYearRangeForYear isoSlice10
    rw [if_pos (hkey w (by omega)), if_pos (hkey (w + 1) hw)]
    rfl
  constructor
  · have p4 : jsPadStart 2 '0' (toString 4) = "04" := by decide
    have p6 : jsPadStart 2 '0' (toString 6) = "06" := by decide
    have hy : jsUTCFullYear y = y := by unfold jsUTCFullYear; rw [if_neg]; omega
    have hy1 : jsUTCFullYear (y + 1) = y + 1 := by
      unfold jsUTCFullYear; rw [if_neg]; omega
    rw [hsome y (by omega), hy, hy1]
    simp only [isoSlice10Str]
    rw [if_pos (show y ≤ 9999 by omega), if_pos (show y + 1 ≤ 9999 by omega),
      p4, p6, append_dash04_dash06, append_dash04_dash06]
  · intro z hz
    exact ⟨_, _, hsome z (by omega), hsome (z + 1) (by omega), rfl⟩

/-- Witness for C6 (amended): `resolveTaxYear(2024) = {start: "2024-04-06",
endExclusive: "2025-04-06"}`, and `resolveTaxYear(2024)` and
`resolveTaxYear(2025)` both return, with the former's `endExclusive` equal
to the latter's `start`. -/
theorem getUKTaxYearRange_spec_witness :
    getUKTaxYearRangeForYear 2024
      = some { start := "2024-04-06", endExclusive := "2025-04-06" }
    ∧ ∃ r r', getUKTaxYearRangeForYear 2024 = some r
        ∧ getUKTaxYearRangeForYear 2025 = some r'
        ∧ r.endExclusive = r'.start := by
  have h := getUKTaxYearRange_spec 2024 (by norm_num) (by norm_num)
  exact ⟨h.1.trans (by decide), h.2 2024 (by norm_num)⟩

/-- The claim's reading of the label suffix: the last two digits of `n`,
zero-padded to two digits. -/
def lastTwoDigits (n : ℕ) : String :=
  if n % 100 < 10 then "0" ++ toString (n % 100) else toString (n % 100)

theorem jsPadStart_two_digits : ∀ m : ℕ, m < 100 →
    jsPadStart 2 '0' (toString m)
      = if m < 10 then "0" ++ toString m else toString m := by decide

/-- C7: `taxYearLabel(Y)` is `"Y-YY"` where YY is the last two digits of
Y + 1 zero-padded to two digits; in particular `taxYearLabel(2024) =
"2024-25"` and `taxYearLabel(2099) = "2099-00"`. -/
theorem taxYearLabel_spec :
    (∀ y : ℕ, taxYearLabel y = toString y ++ "-" ++ lastTwoDigits (y + 1))
    ∧ taxYearLabel 2024 = "2024-25"
    ∧ taxYearLabel 2099 = "2099-00" := by
  refine ⟨?_, by decide, by decide⟩
  intro y
  rw [taxYearLabel, lastTwoDigits,
    jsPadStart_two_digits ((y + 1) % 100) (Nat.mod_lt _ (by norm_num))]

/-- Counterexample to C8: for 1 May of year 50 — a day inside the tax year
starting 6 April of year 50 — the lookup returns 49, not 50: `Date.UTC`
reads year 50 as 1950, so the 6-April comparison fails. -/
theorem getCurrentUKTaxYearStartYear_counterexample :
    getCurrentUKTaxYearStartYear ⟨50, 5, 1⟩ = 49
    ∧ dateKey ⟨50, 4, 6⟩ ≤ dateKey ⟨50, 5, 1⟩
    ∧ dateKey ⟨50, 5, 1⟩ < dateKey ⟨51, 4, 6⟩
    ∧ (49 : ℤ) ≠ 50 := by decide

/-- C8 (amended): for every valid date `today` and start year Y ≥ 100 with
`today` in [6 April Y, 6 April Y+1), the current-tax-year lookup returns
Y — equivalently it returns the calendar year of `today` when `today` is on
or after 6 April of that year, and the previous year otherwise. -/
theorem getCurrentUKTaxYearStartYear_spec (today : JSDate) (Y : ℕ)
    (hv : today.valid) (hY : 100 ≤ Y)
    (h1 : dateKey ⟨Y, 4, 6⟩ ≤ dateKey today)
    (h2 : dateKey today < dateKey ⟨Y + 1, 4, 6⟩) :
    getCurrentUKTaxYearStartYear today = Y := by
  obtain ⟨hm1, hm2, hd1, hd2⟩ := hv
  simp only [dateKey] at h1 h2
  simp only [getCurrentUKTaxYearStartYear, jsUTCFullYear, dateKey]
  split_ifs <;> omega

/-- Witness for C8 (amended): 12 October 2025 lies in the tax year starting
6 April 2025, and the lookup returns 2025. -/
theorem getCurrentUKTaxYearStartYear_spec_witness :
    getCurrentUKTaxYearStartYear ⟨2025, 10, 12⟩ = 2025 :=
  getCurrentUKTaxYearStartYear_spec ⟨2025, 10, 12⟩ 2025 (by decide) (by norm_num)
    (by decide) (by decide)

/-- C9: for negative `totalMiles` and a non-negative threshold the mileage
calculator neither rejects nor clamps: it returns
`totalMiles × mileageRateFirst` (the second tier contributes 0), which is
negative whenever the first-tier rate is positive. -/
theorem claimForMiles_negative_miles (miles : ℚ) (s : FinanceSettings)
    (hm : miles < 0) (ht : 0 ≤ s.mileage_threshold) :
    claimForMiles miles s = miles * s.mileage_rate_first
    ∧ (0 < s.mileage_rate_first → claimForMiles miles s < 0) := by
  have hmin : min miles s.mileage_threshold = miles :=
    min_eq_left (le_trans (le_of_lt hm) ht)
  have hmax : max 0 (miles - s.mileage_threshold) = 0 :=
    max_eq_left (by linarith)
  have heq : claimForMiles miles s = miles * s.mileage_rate_first := by
    simp only [claimForMiles, hmin, hmax, zero_mul, add_zero]
  exact ⟨heq, fun hr => heq ▸ mul_neg_of_neg_of_pos hm hr⟩

/-- Witness for C9: −10 miles under the default settings (first-tier rate
0.45) yields a claim of −4.5, which is negative. -/
theorem claimForMiles_negative_miles_witness :
    claimForMiles (-10) defaultFinanceSettings = -4.5
    ∧ claimForMiles (-10) defaultFinanceSettings < 0 := by
  have h := claimForMiles_negative_miles (-10) defaultFinanceSettings (by norm_num)
    (by norm_num [defaultFinanceSettings])
  exact ⟨h.1.trans (by norm_num [defaultFinanceSettings]),
    h.2 (by norm_num [defaultFinanceSettings])⟩

/-- C10: the owners divisor `Math.max(1, owners_count || 2)` is at least 1
for every input — zero, negative, `NaN` or absent (`Option`-lifted) — so the
division producing `perOwnerProfit` is never a division by zero, and the
returned `owners` field is always ≥ 1, also under the `safeSettings`
defaulting of a missing settings record. -/
theorem taxPot_owners_never_zero :
    (∀ oc : Option ℚ, 1 ≤ ownersDivisor oc)
    ∧ (∀ (p : ℚ) (s : FinanceSettings),
        1 ≤ (taxPot p s).owners ∧ (taxPot p s).owners ≠ 0)
    ∧ (∀ (p : ℚ) (so : Option FinanceSettings),
        1 ≤ (taxPot p (safeSettings so)).owners) := by
  refine ⟨fun oc => le_max_left 1 _, fun p s => ?_,
    fun p so => one_le_taxPot_owners p _⟩
  have h := one_le_taxPot_owners p s
  exact ⟨h, fun h0 => by rw [h0] at h; norm_num at h⟩

end PacaPrints
